import Mathlib

/-!
Verification of the flight-search agent's task-lifecycle and
response-classification layer against its specification.

Python text is embedded as `List Char` (one element per character).
`lowerChar`/`upperChar` embed Python's `str.lower`/`str.upper` on the
ASCII range, which covers every character occurring in the fixed phrase
tables of the source. Randomized values drawn inside the mock flight
generator are supplied as explicit `FlightDraw` inputs, and the opaque
reasoning engine behind `FlightSearchAgent.chat` is an explicit function
argument, so every definition stays executable.
-/

namespace FlightsAgent

/-- ASCII lowering of one character, as Python `str.lower` acts on ASCII. -/
def lowerChar (c : Char) : Char :=
  if 65 ≤ c.toNat ∧ c.toNat ≤ 90 then Char.ofNat (c.toNat + 32) else c

/-- ASCII uppering of one character, as Python `str.upper` acts on ASCII. -/
def upperChar (c : Char) : Char :=
  if 97 ≤ c.toNat ∧ c.toNat ≤ 122 then Char.ofNat (c.toNat - 32) else c

/-- `listStarts p l` holds when `p` is an initial segment of `l`. -/
def listStarts : List Char → List Char → Bool
  | [], _ => true
  | _ :: _, [] => false
  | a :: as, b :: bs => a == b && listStarts as bs

/-- `hasSub needle hay` embeds Python's `needle in hay` substring test. -/
def hasSub (needle : List Char) : List Char → Bool
  | [] => listStarts needle []
  | c :: rest => listStarts needle (c :: rest) || hasSub needle rest

/-- Characters stripped by Python's default `str.strip` on ASCII input. -/
def isPySpace (c : Char) : Bool :=
  c == ' ' || c == '\t' || c == '\n' || c == '\r' ||
    c == Char.ofNat 11 || c == Char.ofNat 12

/-- Embeds Python `str.strip()` on ASCII input. -/
def pyStrip (l : List Char) : List Char :=
  ((l.dropWhile isPySpace).reverse.dropWhile isPySpace).reverse

/-- Embeds Python `str.upper()` on ASCII input. -/
def pyUpper (l : List Char) : List Char :=
  l.map upperChar

/-- The fixed asking-phrase table of `_is_asking_for_input`
(`a2a_server.py`, `asking_indicators`). -/
def askingIndicators : List (List Char) :=
  ["could you please provide".toList,
   "please provide".toList,
   "i need to know".toList,
   "can you tell me".toList,
   "could you specify".toList,
   "which city".toList,
   "where are you".toList,
   "what is your".toList,
   "more details".toList,
   "need more information".toList,
   "?".toList]

/-- The flight-detail keyword table of `_is_asking_for_input`
(`a2a_server.py`, lines 324-330). -/
def flightDetailKeywords : List (List Char) :=
  ["departure city".toList,
   "arrival city".toList,
   "origin".toList,
   "destination".toList,
   "budget".toList]

/-- Embeds `FlightSearchAgentExecutor._is_asking_for_input` on string input.
(The `isinstance(response_text, list)` branch of the source is dead on the
call path from `execute`, where the argument is always a string.) -/
def isAskingForInput (responseText : List Char) : Bool :=
  let responseLower := responseText.map lowerChar
  let hasQuestionMark := hasSub "?".toList responseText
  let hasAskingPhrase := askingIndicators.any (fun ind => hasSub ind responseLower)
  hasAskingPhrase && hasQuestionMark

/-- The `is_asking_flight_details` signal computed (and never consumed) by
`_is_asking_for_input`. -/
def isAskingFlightDetails (responseText : List Char) : Bool :=
  let responseLower := responseText.map lowerChar
  (flightDetailKeywords.any (fun k => hasSub k responseLower)) &&
    hasSub "?".toList responseText

/-- The Response Classifier's outcome vocabulary. -/
inductive Classification where
  | needsInput
  | final
deriving DecidableEq, Repr

/-- The Response Classifier: `needs-input` exactly when
`_is_asking_for_input` returns `True`. -/
def classify (s : List Char) : Classification :=
  if isAskingForInput s then Classification.needsInput else Classification.final

/-- Spec-side refinement target for C10: the single test "the text contains
a literal question mark". -/
def containsQuestionMark (s : List Char) : Bool :=
  hasSub "?".toList s

/-- One role-tagged turn of a conversation history. -/
structure Turn where
  role : List Char
  content : List Char
deriving DecidableEq, Repr

/-- The Conversation Store: the `_chat_histories` dict, as a map from
context identifier to the stored history (`none` when the key is absent). -/
def ConvStore : Type :=
  List Char → Option (List Turn)

/-- Embeds `_get_chat_history`: a `dict.get` that does not mutate the store.
The unchanged store is returned alongside the result to make the absence of
mutation part of the contract. -/
def getChatHistory (store : ConvStore) (contextId : List Char) :
    ConvStore × Option (List Turn) :=
  (store, store contextId)

/-- Embeds `_store_chat_message`: initialize the key with `[]` when absent,
then append the new turn. -/
def storeChatMessage (store : ConvStore) (contextId role content : List Char) :
    ConvStore :=
  fun c =>
    if c = contextId then
      some ((store contextId).getD [] ++ [{ role := role, content := content }])
    else store c

/-- One element of a list-shaped engine output: a dict (with an optional
`text` entry) or any other value. -/
inductive BlockElem where
  | dictElem (text : Option (List Char))
  | otherElem
deriving DecidableEq, Repr

/-- The duck-typed shape of the reasoning engine's output text: a plain
string, or a list whose Python `str()` rendering is carried alongside. -/
inductive RawMessage where
  | plain (t : List Char)
  | listMsg (blocks : List BlockElem) (strRepr : List Char)
deriving DecidableEq, Repr

/-- Embeds the extraction block of `execute` (`a2a_server.py`, lines 92-101)
turning a raw engine message into the response text. -/
def extractResponseText : RawMessage → List Char
  | RawMessage.plain t => t
  | RawMessage.listMsg blocks strRepr =>
    match blocks with
    | BlockElem.dictElem (some t) :: _ => t
    | BlockElem.dictElem none :: _ => strRepr
    | _ => strRepr

/-- LangChain-side message vocabulary produced by `chat`'s history
conversion. -/
inductive LCMessage where
  | human (content : List Char)
  | ai (content : List Char)
deriving DecidableEq, Repr

/-- Embeds `chat`'s history conversion loop: `user` turns become human
messages, `assistant` turns become AI messages, anything else is dropped,
and a missing (`None`) history yields the empty list. -/
def toLCHistory : Option (List Turn) → List LCMessage
  | none => []
  | some h =>
    h.filterMap (fun t =>
      if t.role = "user".toList then some (LCMessage.human t.content)
      else if t.role = "assistant".toList then some (LCMessage.ai t.content)
      else none)

/-- The two result dict shapes `FlightSearchAgent.chat` can return. -/
inductive ChatResult where
  | ok (message : RawMessage)
  | err (error : List Char) (message : List Char)
deriving DecidableEq, Repr

/-- The `success` entry of a chat result dict. -/
def ChatResult.success : ChatResult → Bool
  | ChatResult.ok _ => true
  | ChatResult.err _ _ => false

/-- The `message` entry of a chat result dict (always present; the failure
shape carries the fixed apology text). -/
def ChatResult.messageVal : ChatResult → Option RawMessage
  | ChatResult.ok m => some m
  | ChatResult.err _ apology => some (RawMessage.plain apology)

/-- The `error` entry of a chat result dict (absent on success). -/
def ChatResult.errorVal : ChatResult → Option (List Char)
  | ChatResult.ok _ => none
  | ChatResult.err e _ => some e

/-- The fixed apology text of `chat`'s failure result. -/
def apologyMessage : List Char :=
  "I apologize, but I encountered an error processing your request. Please try again.".toList

/-- Embeds `FlightSearchAgent.chat`: the opaque reasoning engine is the
explicit argument `engine`; an exception raised during the engine call is
its `Except.error` outcome. The whole body is wrapped in try/except, so
`chat` itself is total. -/
def chat (message : List Char) (chatHistory : Option (List Turn))
    (engine : List Char → List LCMessage → Except (List Char) RawMessage) :
    ChatResult :=
  match engine message (toLCHistory chatHistory) with
  | Except.ok output => ChatResult.ok output
  | Except.error e => ChatResult.err e apologyMessage

/-- Lifecycle states of the A2A task protocol used by the executor. -/
inductive TaskState where
  | submitted
  | working
  | inputRequired
  | completed
  | failed
deriving DecidableEq, Repr

/-- The terminal states of the task lifecycle. -/
def TaskState.isTerminal : TaskState → Bool
  | TaskState.inputRequired => true
  | TaskState.completed => true
  | TaskState.failed => true
  | _ => false

/-- A task: identity plus the conversation (context) identifier. -/
structure Task where
  id : List Char
  contextId : List Char
deriving DecidableEq, Repr

/-- One message part as consumed by `_extract_text_from_parts`: a text part
or any other kind (which is skipped). -/
inductive Part where
  | textPart (t : List Char)
  | otherPart
deriving DecidableEq, Repr

/-- The inbound request message: an ordered list of parts. -/
structure InboundMessage where
  parts : List Part
deriving DecidableEq, Repr

/-- Embeds `_extract_text_from_parts`: collect the text of the text parts
and join with single spaces. -/
def extractTextFromParts (parts : List Part) : List Char :=
  List.intercalate " ".toList
    (parts.filterMap (fun p =>
      match p with
      | Part.textPart t => some t
      | Part.otherPart => none))

/-- A `TaskStatusUpdateEvent` as enqueued by `execute`. -/
structure StatusUpdate where
  state : TaskState
  message : Option (List Char)
  final : Bool
  contextId : List Char
  taskId : List Char
deriving DecidableEq, Repr

/-- A `TaskArtifactUpdateEvent` as enqueued by `execute`. -/
structure ArtifactUpdate where
  append : Bool
  lastChunk : Bool
  name : List Char
  description : List Char
  text : List Char
  contextId : List Char
  taskId : List Char
deriving DecidableEq, Repr

/-- Everything `execute` enqueues on the event queue: the newly created
task object, status updates, and artifact updates. -/
inductive Event where
  | task (t : Task)
  | status (s : StatusUpdate)
  | artifact (a : ArtifactUpdate)
deriving DecidableEq, Repr

/-- Whether an enqueued event is a lifecycle update (status or artifact),
as opposed to the initial enqueue of the newly created task object. -/
def isUpdateEvent : Event → Bool
  | Event.task _ => false
  | Event.status _ => true
  | Event.artifact _ => true

/-- The lifecycle update events among everything enqueued. -/
def updateEvents (events : List Event) : List Event :=
  events.filter isUpdateEvent

/-- The task state set by the last status update in an event list, if any. -/
def lastStatusState (events : List Event) : Option TaskState :=
  events.foldl
    (fun acc e =>
      match e with
      | Event.status s => some s.state
      | _ => acc)
    none

/-- Embeds `FlightSearchAgentExecutor.execute`. Inputs: the conversation
store, the request context (`message`, `current_task`), the task that
`new_task` would mint (`fresh` — its uuid generation is not embeddable),
and the chat call as a function. Output: the updated store and the ordered
list of enqueued events. The only `raise` reachable in the body is
`Exception('No message provided')`; the top-level handler emits a failed
status only when `context.current_task` exists, and the in-memory event
queue's enqueue does not fail. -/
def execute (store : ConvStore) (message : Option InboundMessage)
    (currentTask : Option Task) (fresh : Task)
    (chatFn : List Char → Option (List Turn) → ChatResult) :
    ConvStore × List Event :=
  match message with
  | none =>
    match currentTask with
    | some t =>
      (store,
       [Event.status
         { state := TaskState.failed,
           message := some ("Error: No message provided".toList),
           final := true, contextId := t.contextId, taskId := t.id }])
    | none => (store, [])
  | some m =>
    let task := currentTask.getD fresh
    let createdEvents : List Event :=
      match currentTask with
      | none => [Event.task fresh]
      | some _ => []
    let userMessage := extractTextFromParts m.parts
    let history := (getChatHistory store task.contextId).2
    let store1 := storeChatMessage store task.contextId "user".toList userMessage
    match chatFn userMessage history with
    | ChatResult.ok rawMessage =>
      let responseText := extractResponseText rawMessage
      let store2 := storeChatMessage store1 task.contextId "assistant".toList responseText
      if isAskingForInput responseText then
        (store2,
         createdEvents ++
           [Event.status
             { state := TaskState.inputRequired,
               message := some responseText,
               final := true, contextId := task.contextId, taskId := task.id }])
      else
        (store2,
         createdEvents ++
           [Event.artifact
             { append := false, lastChunk := true,
               name := "flight_search_result".toList,
               description := "Flight search results".toList,
               text := responseText,
               contextId := task.contextId, taskId := task.id },
            Event.status
             { state := TaskState.completed, message := none,
               final := true, contextId := task.contextId, taskId := task.id }])
    | ChatResult.err errorText _ =>
      (store1,
       createdEvents ++
         [Event.status
           { state := TaskState.failed,
             message := some ("Error: ".toList ++ errorText),
             final := true, contextId := task.contextId, taskId := task.id }])

/-- The known-airport table of `MockFlightData.AIRPORTS`, in insertion
order. -/
def airportTable : List (List Char × List (List Char)) :=
  [("NYC".toList, ["JFK".toList, "LGA".toList, "EWR".toList]),
   ("New York".toList, ["JFK".toList, "LGA".toList, "EWR".toList]),
   ("LON".toList, ["LHR".toList, "LGW".toList, "STN".toList]),
   ("London".toList, ["LHR".toList, "LGW".toList, "STN".toList]),
   ("LAX".toList, ["LAX".toList]),
   ("Los Angeles".toList, ["LAX".toList]),
   ("SFO".toList, ["SFO".toList]),
   ("San Francisco".toList, ["SFO".toList]),
   ("ORD".toList, ["ORD".toList]),
   ("Chicago".toList, ["ORD".toList]),
   ("MIA".toList, ["MIA".toList]),
   ("Miami".toList, ["MIA".toList]),
   ("BOS".toList, ["BOS".toList]),
   ("Boston".toList, ["BOS".toList]),
   ("SEA".toList, ["SEA".toList]),
   ("Seattle".toList, ["SEA".toList]),
   ("ATL".toList, ["ATL".toList]),
   ("Atlanta".toList, ["ATL".toList]),
   ("DFW".toList, ["DFW".toList]),
   ("Dallas".toList, ["DFW".toList])]

/-- The fallback loop of `normalize_location`: for each table entry, first
compare uppercased keys, then test membership among that entry's codes. -/
def lookupLoop (loc : List Char) :
    List (List Char × List (List Char)) → Option (List Char)
  | [] => none
  | (key, codes) :: rest =>
    if pyUpper loc == pyUpper key then some (codes.headD [])
    else if codes.contains loc then some loc
    else lookupLoop loc rest

/-- Embeds `MockFlightData.normalize_location`: strip and upper the input,
try a direct key match, then the fallback loop, else `None`. -/
def normalize_location (location : List Char) : Option (List Char) :=
  let loc := pyUpper (pyStrip location)
  match airportTable.find? (fun p => p.1 == loc) with
  | some p => some (p.2.headD [])
  | none => lookupLoop loc airportTable

/-- The random values drawn for one generated flight. Times, stop counts,
cabin class and seat count are further independent draws that do not affect
ordering, filtering, or codes, and are omitted. -/
structure FlightDraw where
  airline : List Char
  price : Nat
deriving DecidableEq, Repr

/-- The fields of one generated flight record relevant to ordering,
filtering, and location codes. -/
structure Flight where
  airline : List Char
  origin : List Char
  destination : List Char
  price : Nat
deriving DecidableEq, Repr

/-- The comparison key of `flights.sort(key=lambda x: x["price"])`. -/
def priceLe (a b : Flight) : Bool :=
  decide (a.price ≤ b.price)

/-- Embeds `MockFlightData.generate_mock_flights`: resolve the location
codes (with the 3-character uppercase fallback), build one record per
random draw, sort ascending by price, and — when a truthy budget was
supplied — keep only the records with price at most the budget. -/
def generate_mock_flights (origin destination : List Char) (budget : Option ℚ)
    (draws : List FlightDraw) : List Flight :=
  let originCode := (normalize_location origin).getD (pyUpper (origin.take 3))
  let destCode := (normalize_location destination).getD (pyUpper (destination.take 3))
  let flights := draws.map (fun d =>
    { airline := d.airline, origin := originCode,
      destination := destCode, price := d.price : Flight })
  let sorted := flights.mergeSort priceLe
  match budget with
  | some b =>
    if b ≠ 0 then sorted.filter (fun f => decide ((f.price : ℚ) ≤ b)) else sorted
  | none => sorted

/-- Concrete data for witness theorems. -/
def emptyStore : ConvStore :=
  fun _ => none

/-- A concrete existing task for witness theorems. -/
def demoTask : Task :=
  { id := "task-1".toList, contextId := "ctx-1".toList }

/-- A concrete inbound message for witness theorems. -/
def demoMessage : InboundMessage :=
  { parts := [Part.textPart "Find me a flight".toList] }

/-- A chat stub that fails, for witness theorems. -/
def chatFnErrDemo : List Char → Option (List Turn) → ChatResult :=
  fun _ _ => ChatResult.err "boom".toList apologyMessage

/-- A chat stub that answers with a clarification question, for witness
theorems. -/
def chatFnAskDemo : List Char → Option (List Turn) → ChatResult :=
  fun _ _ => ChatResult.ok (RawMessage.plain "Which city are you departing from?".toList)

/-- A chat stub that answers with a final text, for witness theorems. -/
def chatFnFinalDemo : List Char → Option (List Turn) → ChatResult :=
  fun _ _ => ChatResult.ok (RawMessage.plain "Here are your flights.".toList)

/-- An engine stub that succeeds, for witness theorems. -/
def engineOkDemo : List Char → List LCMessage → Except (List Char) RawMessage :=
  fun _ _ => Except.ok (RawMessage.plain "ok".toList)

/-- An engine stub that raises, for witness theorems. -/
def engineErrDemo : List Char → List LCMessage → Except (List Char) RawMessage :=
  fun _ _ => Except.error "engine down".toList

theorem lowerChar_eq_qm {c : Char} : lowerChar c = '?' ↔ c = '?' := by
  constructor
  · intro h
    unfold lowerChar at h
    split at h
    · exfalso
      rename_i hr
      have hv : (c.toNat + 32).isValidChar := Or.inl (by omega)
      have h2 := congrArg Char.toNat h
      have h3 : (Char.ofNat (c.toNat + 32)).toNat = c.toNat + 32 := by
        unfold Char.ofNat
        rw [dif_pos hv]
        rfl
      rw [h3] at h2
      have h4 : Char.toNat '?' = 63 := rfl
      rw [h4] at h2
      omega
    · exact h
  · intro h
    subst h
    rfl

theorem mem_map_lowerChar_qm {l : List Char} : '?' ∈ l.map lowerChar ↔ '?' ∈ l := by
  rw [List.mem_map]
  constructor
  · rintro ⟨c, hc, he⟩
    rwa [lowerChar_eq_qm.mp he] at hc
  · intro h
    exact ⟨'?', h, rfl⟩

theorem listStarts_iff (p : List Char) : ∀ l, listStarts p l = true ↔ ∃ r, l = p ++ r := by
  induction p with
  | nil =>
    intro l
    simp [listStarts]
  | cons a as ih =>
    intro l
    cases l with
    | nil => simp [listStarts]
    | cons b bs =>
      simp only [listStarts, Bool.and_eq_true, beq_iff_eq, ih bs, List.cons_append]
      constructor
      · rintro ⟨hab, r, hr⟩
        exact ⟨r, by simp [hab, hr]⟩
      · rintro ⟨r, hr⟩
        injection hr with h1 h2
        exact ⟨h1.symm, r, h2⟩

theorem hasSub_iff (p : List Char) :
    ∀ l, hasSub p l = true ↔ ∃ pre post, l = pre ++ p ++ post := by
  intro l
  induction l with
  | nil =>
    simp only [hasSub, listStarts_iff]
    constructor
    · rintro ⟨r, hr⟩
      exact ⟨[], r, by simpa using hr⟩
    · rintro ⟨pre, post, hp⟩
      have h0 := hp.symm
      rw [List.append_eq_nil] at h0
      rcases h0 with ⟨h01, h02⟩
      rw [List.append_eq_nil] at h01
      exact ⟨[], by simp [h01.2]⟩
  | cons c rest ih =>
    simp only [hasSub, Bool.or_eq_true, listStarts_iff, ih]
    constructor
    · rintro (⟨r, hr⟩ | ⟨pre, post, hp⟩)
      · exact ⟨[], r, by simp [hr]⟩
      · exact ⟨c :: pre, post, by simp [hp]⟩
    · rintro ⟨pre, post, hp⟩
      cases pre with
      | nil =>
        left
        exact ⟨post, by simpa using hp⟩
      | cons x xs =>
        right
        rw [List.cons_append, List.cons_append] at hp
        injection hp with h1 h2
        exact ⟨xs, post, h2⟩

theorem hasSub_singleton (a : Char) (l : List Char) : hasSub [a] l = true ↔ a ∈ l := by
  rw [hasSub_iff]
  constructor
  · rintro ⟨pre, post, h⟩
    subst h
    simp
  · intro h
    obtain ⟨s, t, rfl⟩ := List.append_of_mem h
    exact ⟨s, t, by simp⟩

theorem isAskingForInput_iff (s : List Char) :
    isAskingForInput s = true ↔
      ('?' ∈ s ∧ ∃ p ∈ askingIndicators, ∃ pre post, s.map lowerChar = pre ++ p ++ post) := by
  unfold isAskingForInput
  simp only [Bool.and_eq_true]
  rw [and_comm]
  constructor
  · rintro ⟨hq, ha⟩
    refine ⟨(hasSub_singleton '?' s).mp hq, ?_⟩
    rcases List.any_eq_true.mp ha with ⟨p, hp, hps⟩
    exact ⟨p, hp, (hasSub_iff p _).mp hps⟩
  · rintro ⟨hq, p, hp, pre, post, hs⟩
    refine ⟨(hasSub_singleton '?' s).mpr hq, ?_⟩
    exact List.any_eq_true.mpr ⟨p, hp, (hasSub_iff p _).mpr ⟨pre, post, hs⟩⟩

/-- C1: the Response Classifier returns needs-input if and only if the text
contains a literal question mark and some phrase of the fixed asking-phrase
table occurs as a substring of the lowercased text; in every other case it
returns final. -/
theorem c1_classify_needsInput_iff (s : List Char) :
    (classify s = Classification.needsInput ↔
      ('?' ∈ s ∧ ∃ p ∈ askingIndicators, ∃ pre post, s.map lowerChar = pre ++ p ++ post)) ∧
    (classify s = Classification.final ↔
      ¬('?' ∈ s ∧ ∃ p ∈ askingIndicators, ∃ pre post, s.map lowerChar = pre ++ p ++ post)) := by
  have key := isAskingForInput_iff s
  have hcls : classify s = Classification.needsInput ↔ isAskingForInput s = true := by
    unfold classify
    cases isAskingForInput s <;> simp
  have hcls2 : classify s = Classification.final ↔ isAskingForInput s = false := by
    unfold classify
    cases isAskingForInput s <;> simp
  refine ⟨hcls.trans key, ?_⟩
  rw [hcls2]
  constructor
  · intro h hk
    exact absurd (key.mpr hk) (by simp [h])
  · intro h
    cases hv : isAskingForInput s
    · rfl
    · exact absurd (key.mp hv) h

/-- C10: the classifier is equivalent to the single test "the text contains
a question mark": since a bare question mark is itself a member of the
asking-phrase table and lowercasing preserves it, `has_asking_phrase` is
implied by `has_question_mark`, and the separately computed
`is_asking_flight_details` signal does not occur in the returned result. -/
theorem c10_classifier_refines_question_mark (s : List Char) :
    isAskingForInput s = containsQuestionMark s := by
  unfold isAskingForInput containsQuestionMark
  cases hq : hasSub "?".toList s
  · simp
  · simp only [Bool.and_true]
    have h1 : '?' ∈ s := (hasSub_singleton '?' s).mp hq
    have h2 : '?' ∈ s.map lowerChar := mem_map_lowerChar_qm.mpr h1
    have h3 : hasSub "?".toList (s.map lowerChar) = true :=
      (hasSub_singleton '?' _).mpr h2
    exact List.any_eq_true.mpr ⟨"?".toList, by simp [askingIndicators], h3⟩

/-- C2 counterexample: on the exact input text "Nice trip?" the classifier
returns needs-input, not final, because the bare question mark is itself a
member of the asking-phrase table. -/
theorem c2_nice_trip_not_final : ¬ classify "Nice trip?".toList = Classification.final := by
  decide

/-- C2 (amended): the Response Classifier applied to the exact input text
"Nice trip?" returns needs-input: although "nice trip" matches no worded
asking-phrase, the bare question mark entry of the phrase table matches, so
the question mark alone decides the outcome. -/
theorem c2_nice_trip_needs_input :
    classify "Nice trip?".toList = Classification.needsInput := by
  decide

/-- C9: reading the Conversation Store twice with no intervening append
returns identical ordered sequences, and appending a user turn then an
assistant turn and reading back yields the previous sequence extended by
exactly those two turns in that insertion order. -/
theorem c9_store_idempotent_roundtrip (store : ConvStore) (cid u a : List Char) :
    ((getChatHistory store cid).2 = (getChatHistory (getChatHistory store cid).1 cid).2) ∧
    ((getChatHistory
        (storeChatMessage (storeChatMessage store cid "user".toList u)
          cid "assistant".toList a) cid).2 =
      some (((getChatHistory store cid).2).getD [] ++
        [{ role := "user".toList, content := u },
         { role := "assistant".toList, content := a }])) := by
  constructor
  · rfl
  · simp [getChatHistory, storeChatMessage]

/-- C4: the Reasoning Invoker never raises: on a successful engine
completion it returns a result with success true and the output under the
message key, and on any exception raised during the call it returns a
result with success false and the exception text under the error key. -/
theorem c4_chat_never_raises (msg : List Char) (hist : Option (List Turn))
    (engine : List Char → List LCMessage → Except (List Char) RawMessage) :
    (∀ out, engine msg (toLCHistory hist) = Except.ok out →
      (chat msg hist engine).success = true ∧
      (chat msg hist engine).messageVal = some out) ∧
    (∀ e, engine msg (toLCHistory hist) = Except.error e →
      (chat msg hist engine).success = false ∧
      (chat msg hist engine).errorVal = some e) := by
  constructor
  · intro out h
    simp [chat, h, ChatResult.success, ChatResult.messageVal]
  · intro e h
    simp [chat, h, ChatResult.success, ChatResult.errorVal]

/-- C4 witness: the two branches of `c4_chat_never_raises` at concrete
engines. -/
theorem c4_chat_never_raises_witness :
    ((chat "hi".toList none engineOkDemo).success = true ∧
      (chat "hi".toList none engineOkDemo).messageVal =
        some (RawMessage.plain "ok".toList)) ∧
    ((chat "hi".toList none engineErrDemo).success = false ∧
      (chat "hi".toList none engineErrDemo).errorVal = some "engine down".toList) :=
  ⟨(c4_chat_never_raises "hi".toList none engineOkDemo).1
      (RawMessage.plain "ok".toList) rfl,
   (c4_chat_never_raises "hi".toList none engineErrDemo).2
      "engine down".toList rfl⟩

/-- C5: for every Reasoning Invoker result with success false, the
controller emits exactly one lifecycle update event: a status event with
state failed, flagged final, whose agent message text is "Error: " followed
by the error text. -/
theorem c5_failure_single_event
    (store : ConvStore) (m : InboundMessage) (curTask : Option Task) (fresh : Task)
    (chatFn : List Char → Option (List Turn) → ChatResult) (e am : List Char)
    (hres : chatFn (extractTextFromParts m.parts)
        ((getChatHistory store (curTask.getD fresh).contextId).2) =
      ChatResult.err e am) :
    updateEvents (execute store (some m) curTask fresh chatFn).2 =
      [Event.status
        { state := TaskState.failed,
          message := some ("Error: ".toList ++ e),
          final := true,
          contextId := (curTask.getD fresh).contextId,
          taskId := (curTask.getD fresh).id }] := by
  rcases curTask with _ | t
  all_goals simp only [Option.getD_none, Option.getD_some, getChatHistory] at hres
  all_goals simp [execute, updateEvents, isUpdateEvent, getChatHistory, hres]

/-- C5 witness: `c5_failure_single_event` at a concrete failing chat call. -/
theorem c5_failure_single_event_witness :
    updateEvents (execute emptyStore (some demoMessage) none demoTask chatFnErrDemo).2 =
      [Event.status
        { state := TaskState.failed,
          message := some ("Error: boom".toList),
          final := true,
          contextId := "ctx-1".toList,
          taskId := "task-1".toList }] := by
  have h := c5_failure_single_event emptyStore demoMessage none demoTask chatFnErrDemo
    "boom".toList apologyMessage rfl
  simpa using h

/-- C6: for every successful reasoning outcome classified as final, the
controller emits exactly two lifecycle update events in order: an artifact
event carrying the full response text as a non-incremental final chunk,
then a status event with state completed, no message payload, flagged
final. -/
theorem c6_completed_two_events
    (store : ConvStore) (m : InboundMessage) (curTask : Option Task) (fresh : Task)
    (chatFn : List Char → Option (List Turn) → ChatResult) (raw : RawMessage)
    (hres : chatFn (extractTextFromParts m.parts)
        ((getChatHistory store (curTask.getD fresh).contextId).2) =
      ChatResult.ok raw)
    (hask : isAskingForInput (extractResponseText raw) = false) :
    updateEvents (execute store (some m) curTask fresh chatFn).2 =
      [Event.artifact
        { append := false, lastChunk := true,
          name := "flight_search_result".toList,
          description := "Flight search results".toList,
          text := extractResponseText raw,
          contextId := (curTask.getD fresh).contextId,
          taskId := (curTask.getD fresh).id },
       Event.status
        { state := TaskState.completed,
          message := none,
          final := true,
          contextId := (curTask.getD fresh).contextId,
          taskId := (curTask.getD fresh).id }] := by
  rcases curTask with _ | t
  all_goals simp only [Option.getD_none, Option.getD_some, getChatHistory] at hres
  all_goals simp [execute, updateEvents, isUpdateEvent, getChatHistory, hres, hask]

/-- C6 witness: `c6_completed_two_events` at a concrete final-text chat
call. -/
theorem c6_completed_two_events_witness :
    updateEvents (execute emptyStore (some demoMessage) none demoTask chatFnFinalDemo).2 =
      [Event.artifact
        { append := false, lastChunk := true,
          name := "flight_search_result".toList,
          description := "Flight search results".toList,
          text := "Here are your flights.".toList,
          contextId := "ctx-1".toList,
          taskId := "task-1".toList },
       Event.status
        { state := TaskState.completed,
          message := none,
          final := true,
          contextId := "ctx-1".toList,
          taskId := "task-1".toList }] := by
  have h := c6_completed_two_events emptyStore demoMessage none demoTask chatFnFinalDemo
    (RawMessage.plain "Here are your flights.".toList) rfl (by decide)
  simpa using h

/-- C7: for every successful reasoning outcome classified as needs-input,
the controller emits exactly one lifecycle update event: a status event
with state input-required, flagged final, carrying the response text as an
agent message. -/
theorem c7_input_required_single_event
    (store : ConvStore) (m : InboundMessage) (curTask : Option Task) (fresh : Task)
    (chatFn : List Char → Option (List Turn) → ChatResult) (raw : RawMessage)
    (hres : chatFn (extractTextFromParts m.parts)
        ((getChatHistory store (curTask.getD fresh).contextId).2) =
      ChatResult.ok raw)
    (hask : isAskingForInput (extractResponseText raw) = true) :
    updateEvents (execute store (some m) curTask fresh chatFn).2 =
      [Event.status
        { state := TaskState.inputRequired,
          message := some (extractResponseText raw),
          final := true,
          contextId := (curTask.getD fresh).contextId,
          taskId := (curTask.getD fresh).id }] := by
  rcases curTask with _ | t
  all_goals simp only [Option.getD_none, Option.getD_some, getChatHistory] at hres
  all_goals simp [execute, updateEvents, isUpdateEvent, getChatHistory, hres, hask]

/-- C7 witness: `c7_input_required_single_event` at a concrete clarifying
chat call. -/
theorem c7_input_required_single_event_witness :
    updateEvents (execute emptyStore (some demoMessage) none demoTask chatFnAskDemo).2 =
      [Event.status
        { state := TaskState.inputRequired,
          message := some ("Which city are you departing from?".toList),
          final := true,
          contextId := "ctx-1".toList,
          taskId := "task-1".toList }] := by
  have h := c7_input_required_single_event emptyStore demoMessage none demoTask chatFnAskDemo
    (RawMessage.plain "Which city are you departing from?".toList) rfl (by decide)
  simpa using h

/-- C3: whenever a task exists or is created during one controller
invocation (the request carries a message, an existing task, or both), the
invocation returns with the last status update setting a terminal state
(input-required, completed, or failed); the controller never returns with
the task in a non-terminal state. -/
theorem c3_terminal_state
    (store : ConvStore) (message : Option InboundMessage) (curTask : Option Task)
    (fresh : Task) (chatFn : List Char → Option (List Turn) → ChatResult)
    (h : message.isSome ∨ curTask.isSome) :
    ∃ s, lastStatusState (execute store message curTask fresh chatFn).2 = some s ∧
      TaskState.isTerminal s = true := by
  rcases message with _ | m
  · rcases curTask with _ | t
    · simp at h
    · exact ⟨TaskState.failed, by simp [execute, lastStatusState], rfl⟩
  · rcases curTask with _ | t
    · rcases hres : chatFn (extractTextFromParts m.parts) (store fresh.contextId)
          with raw | ⟨e, am⟩
      · by_cases hask : isAskingForInput (extractResponseText raw) = true
        · exact ⟨TaskState.inputRequired,
            by simp [execute, lastStatusState, getChatHistory, hres, hask], rfl⟩
        · have hf : isAskingForInput (extractResponseText raw) = false := by
            simpa using hask
          exact ⟨TaskState.completed,
            by simp [execute, lastStatusState, getChatHistory, hres, hf], rfl⟩
      · exact ⟨TaskState.failed,
          by simp [execute, lastStatusState, getChatHistory, hres], rfl⟩
    · rcases hres : chatFn (extractTextFromParts m.parts) (store t.contextId)
          with raw | ⟨e, am⟩
      · by_cases hask : isAskingForInput (extractResponseText raw) = true
        · exact ⟨TaskState.inputRequired,
            by simp [execute, lastStatusState, getChatHistory, hres, hask], rfl⟩
        · have hf : isAskingForInput (extractResponseText raw) = false := by
            simpa using hask
          exact ⟨TaskState.completed,
            by simp [execute, lastStatusState, getChatHistory, hres, hf], rfl⟩
      · exact ⟨TaskState.failed,
          by simp [execute, lastStatusState, getChatHistory, hres], rfl⟩

/-- C3 witness: `c3_terminal_state` at a concrete request that creates a
new task and completes. -/
theorem c3_terminal_state_witness :
    ∃ s, lastStatusState
        (execute emptyStore (some demoMessage) none demoTask chatFnFinalDemo).2 =
      some s ∧ TaskState.isTerminal s = true :=
  c3_terminal_state emptyStore (some demoMessage) none demoTask chatFnFinalDemo
    (Or.inl rfl)

theorem priceLe_trans (a b c : Flight) :
    priceLe a b = true → priceLe b c = true → priceLe a c = true := by
  intro h1 h2
  simp [priceLe] at *
  omega

theorem priceLe_total (a b : Flight) : (priceLe a b || priceLe b a) = true := by
  simp [priceLe]
  omega

/-- C8: for every origin, destination and supplied (positive) budget, the
flight-lookup tool returns a list sorted ascending by price in which every
record's price is at most the budget; and for every location string the
airport table does not resolve, its code in the results is the first three
characters of the input uppercased. -/
theorem c8_generate_flights_contract
    (origin destination : List Char) (b : ℚ) (draws : List FlightDraw)
    (hb : 0 < b) :
    List.Pairwise (fun f g : Flight => f.price ≤ g.price)
      (generate_mock_flights origin destination (some b) draws) ∧
    (∀ f ∈ generate_mock_flights origin destination (some b) draws,
      (f.price : ℚ) ≤ b) ∧
    (normalize_location origin = none →
      ∀ f ∈ generate_mock_flights origin destination (some b) draws,
        f.origin = pyUpper (origin.take 3)) ∧
    (normalize_location destination = none →
      ∀ f ∈ generate_mock_flights origin destination (some b) draws,
        f.destination = pyUpper (destination.take 3)) := by
  have hb0 : b ≠ 0 := ne_of_gt hb
  have hgen : generate_mock_flights origin destination (some b) draws =
      ((draws.map (fun d =>
        { airline := d.airline,
          origin := (normalize_location origin).getD (pyUpper (origin.take 3)),
          destination := (normalize_location destination).getD (pyUpper (destination.take 3)),
          price := d.price : Flight })).mergeSort priceLe).filter
        (fun f => decide ((f.price : ℚ) ≤ b)) := by
    simp [generate_mock_flights, hb0]
  refine ⟨?_, ?_, ?_, ?_⟩
  · rw [hgen]
    exact ((List.sorted_mergeSort priceLe_trans priceLe_total _).filter _).imp
      (fun hab => by simpa [priceLe] using hab)
  · intro f hf
    rw [hgen] at hf
    exact of_decide_eq_true (List.mem_filter.mp hf).2
  · intro hn f hf
    rw [hgen] at hf
    have hf2 := (List.mem_filter.mp hf).1
    rw [List.mem_mergeSort] at hf2
    rcases List.mem_map.mp hf2 with ⟨d, _, rfl⟩
    simp [hn]
  · intro hn f hf
    rw [hgen] at hf
    have hf2 := (List.mem_filter.mp hf).1
    rw [List.mem_mergeSort] at hf2
    rcases List.mem_map.mp hf2 with ⟨d, _, rfl⟩
    simp [hn]

/-- C8 witness: `c8_generate_flights_contract` at two unknown locations, a
budget of 500, and two concrete draws. -/
theorem c8_generate_flights_contract_witness :
    (0 : ℚ) < 500 ∧
    (List.Pairwise (fun f g : Flight => f.price ≤ g.price)
      (generate_mock_flights "Zurich".toList "Oslo".toList (some 500)
        [⟨"Delta".toList, 600⟩, ⟨"United".toList, 300⟩]) ∧
    (∀ f ∈ generate_mock_flights "Zurich".toList "Oslo".toList (some 500)
        [⟨"Delta".toList, 600⟩, ⟨"United".toList, 300⟩],
      (f.price : ℚ) ≤ 500) ∧
    (normalize_location "Zurich".toList = none →
      ∀ f ∈ generate_mock_flights "Zurich".toList "Oslo".toList (some 500)
          [⟨"Delta".toList, 600⟩, ⟨"United".toList, 300⟩],
        f.origin = pyUpper ("Zurich".toList.take 3)) ∧
    (normalize_location "Oslo".toList = none →
      ∀ f ∈ generate_mock_flights "Zurich".toList "Oslo".toList (some 500)
          [⟨"Delta".toList, 600⟩, ⟨"United".toList, 300⟩],
        f.destination = pyUpper ("Oslo".toList.take 3))) :=
  ⟨by norm_num,
   c8_generate_flights_contract "Zurich".toList "Oslo".toList 500
     [⟨"Delta".toList, 600⟩, ⟨"United".toList, 300⟩] (by norm_num)⟩

end FlightsAgent
